import Mathlib

/-!
Formal model of the `crypto-top10-web` dashboard (`script.js`).

The repository consists of three evolutionary variants of one browser
script.  This file gives a shallow embedding of the parts that carry
algorithmic or temporal content:

* the indicator computations (`calculateRSI`, the trailing-window moving
  averages and the volume/market-cap ratio computed inline in
  `fetchMarketChart` / `fetchData` of the indicator-rich variant);
* the `formatLargeNumber` compaction helper;
* the per-coin enrichment step run under `Promise.all` (one record per
  snapshot coin, per-coin failures caught);
* the event-driven refresh scheduler of the first variant (order buttons,
  chart-timeframe buttons, the auto-refresh timer and the in-flight
  snapshot fetches of `fetchData`).

JavaScript numbers are modelled as exact rationals (`ℚ`); every concrete
value appearing in the theorems below is far from any IEEE-754 rounding
boundary, so the rational computation agrees with the double computation
on those inputs.
-/

/-- JS `prices.slice(-n)` for positive `n`: the last `n` elements of the
list, or all of them when fewer exist. -/
def trailing (n : ℕ) (l : List ℚ) : List ℚ :=
  l.drop (l.length - n)

/-- The window of prices inspected by `calculateRSI`'s loop
`for (let i = 1; i <= period; i++)`: it reads `prices[0] .. prices[period]`,
i.e. the FIRST `period + 1` entries of its argument. -/
def rsiWindow (prices : List ℚ) (period : ℕ) : List ℚ :=
  prices.take (period + 1)

/-- The successive differences `prices[i] - prices[i-1]` (`i = 1 .. period`)
formed by `calculateRSI`'s loop. -/
def rsiDeltas (prices : List ℚ) (period : ℕ) : List ℚ :=
  List.zipWith (fun a b => b - a) (rsiWindow prices period)
    ((rsiWindow prices period).drop 1)

/-- The `gains` accumulator after `calculateRSI`'s loop: the branch
`if (change >= 0) gains += change` sums exactly the non-negative deltas
(a delta of exactly `0` lands here). -/
def rsiGains (prices : List ℚ) (period : ℕ) : ℚ :=
  ((rsiDeltas prices period).filter (fun c => 0 ≤ c)).sum

/-- The `losses` accumulator after `calculateRSI`'s loop: the branch
`else losses += Math.abs(change)` sums `-change` over the negative
deltas. -/
def rsiLosses (prices : List ℚ) (period : ℕ) : ℚ :=
  (((rsiDeltas prices period).filter (fun c => c < 0)).map (fun c => -c)).sum

/-- `calculateRSI(prices, period = 14)` from `script.js`: `null` when
`prices.length <= period`; otherwise `gains` and `losses` are averaged
over `period`, the result is `100` when the average loss is zero and
`100 - 100 / (1 + avgGain / avgLoss)` otherwise. -/
def calculateRSI (prices : List ℚ) (period : ℕ := 14) : Option ℚ :=
  if prices.length ≤ period then none
  else if rsiLosses prices period / (period : ℚ) = 0 then some 100
  else some (100 - 100 /
    (1 + (rsiGains prices period / (period : ℚ)) /
      (rsiLosses prices period / (period : ℚ))))

/-- The moving-average computation of `fetchMarketChart`, parameterised by
the window (the source instantiates it inline at windows 50 and 200):
mean of the last `window` prices — of all prices when fewer exist — and
absent for the empty series (the source's `json.prices.length === 0`
guard returns `null` before any average is computed). -/
def movingAverage (series : List ℚ) (window : ℕ) : Option ℚ :=
  if series.isEmpty then none
  else
    let lastW := trailing window series
    some (lastW.sum / (lastW.length : ℚ))

/-- The inline ternary of `fetchData`:
`coin.market_cap && coin.market_cap > 0 ? coin.total_volume / coin.market_cap : null`. -/
def volumeOverMarketCap (volume marketCap : ℚ) : Option ℚ :=
  if 0 < marketCap then some (volume / marketCap) else none

/-- The extra per-coin fields computed by `fetchMarketChart` in the
indicator-rich variant. -/
structure Extra where
  avg50 : Option ℚ
  avg200 : Option ℚ
  prices30 : List ℚ
  rsi14 : Option ℚ
  deriving DecidableEq, Repr

/-- The record `{ avg50: null, avg200: null, prices30: [], rsi14: null }`
produced both by the empty-payload guard of `fetchMarketChart` and by the
per-coin `catch` in `fetchData`. -/
def noData : Extra := ⟨none, none, [], none⟩

/-- Body of `fetchMarketChart` after JSON extraction, as a function of the
price list `json.prices.map(p => p[1])`: the empty-series guard, the
50- and 200-day trailing means, the last-30 slice, and the 14-day RSI of
the last 15 prices. -/
def fetchMarketChartModel (prices : List ℚ) : Extra :=
  if prices.isEmpty then noData
  else
    let last50 := trailing 50 prices
    let last200 := trailing 200 prices
    { avg50 := some (last50.sum / (last50.length : ℚ))
      avg200 := some (last200.sum / (last200.length : ℚ))
      prices30 := trailing 30 prices
      rsi14 := calculateRSI (trailing 15 prices) 14 }

/-- Outcome of one coin's history fetch: the promise either rejects
(transport error) or resolves with a price list (possibly empty — the
provider's well-formed "no data" answer). -/
inductive FetchOutcome where
  | fail : FetchOutcome
  | ok : List ℚ → FetchOutcome
  deriving DecidableEq, Repr

/-- The `Promise.all(data.map(async coin => ...))` enrichment of
`fetchData`: each coin is merged with `fetchMarketChart`'s fields on
success and with the all-absent record in the per-coin `catch`.
`Promise.all` places each result at its input index, so the output order
is the input order regardless of completion order; this is the `map`.
A coin's snapshot fields are abstracted to an identifier, which
`Object.assign` carries through unchanged. -/
def enrich (batch : List (ℕ × FetchOutcome)) : List (ℕ × Extra) :=
  batch.map (fun ce =>
    match ce.2 with
    | FetchOutcome.fail => (ce.1, noData)
    | FetchOutcome.ok prices => (ce.1, fetchMarketChartModel prices))

/-- A 16-point series whose head delta is a large loss and whose trailing
14 deltas are all zero: the code reads the head window, the spec's
formula the trailing window. -/
def badSeries : List ℚ := 100 :: List.replicate 15 0

/-- The last `period` deltas of a series (differences of its trailing
`period + 1` points), the quantity claims C4 and C5 speak about. -/
def trailingDeltas (prices : List ℚ) (period : ℕ) : List ℚ :=
  List.zipWith (fun a b => b - a) (prices.drop (prices.length - (period + 1)))
    ((prices.drop (prices.length - (period + 1))).drop 1)

/-- Modelled from the spec: the RSI formula as the specification words it
for claim C4 — average gain and average loss taken over the LAST `period`
deltas of the series (its trailing `period + 1` points).  Kept separate
from `calculateRSI`, which is translated from the source, so the two can
be compared. -/
def specTrailingRSI (prices : List ℚ) (period : ℕ) : Option ℚ :=
  if prices.length ≤ period then none
  else if (((trailingDeltas prices period).filter (fun c => c < 0)).map
      (fun c => -c)).sum / (period : ℚ) = 0 then some 100
  else some (100 - 100 /
    (1 + (((trailingDeltas prices period).filter (fun c => 0 ≤ c)).sum / (period : ℚ)) /
      ((((trailingDeltas prices period).filter (fun c => c < 0)).map
        (fun c => -c)).sum / (period : ℚ))))

/-- JS `Number.prototype.toFixed(d)` picks the integer `n` minimising
`|n / 10^d - x|`, the larger one on ties: for non-negative `x` that is
`⌊x * 10^d + 1/2⌋`. -/
def toFixedDigits (d : ℕ) (q : ℚ) : ℤ :=
  ⌊q * 10 ^ d + 1 / 2⌋

/-- Left-pads a digit string with zeros to length `d`. -/
def padLeftZeros (s : String) (d : ℕ) : String :=
  String.mk (List.replicate (d - s.length) '0') ++ s

/-- Digit-string rendering of `toFixed(d)` for a non-negative number:
the rounded integer `n`, with a decimal point before its last `d` digits
when `d > 0`. -/
def toFixedStrNonneg (d : ℕ) (q : ℚ) : String :=
  let n : ℕ := (toFixedDigits d q).toNat
  if d = 0 then toString n
  else toString (n / 10 ^ d) ++ "." ++ padLeftZeros (toString (n % 10 ^ d)) d

/-- JS `toFixed(d)`; a negative number is rendered as the sign followed by
the rendering of its magnitude. -/
def toFixedStr (d : ℕ) (q : ℚ) : String :=
  if q < 0 then "-" ++ toFixedStrNonneg d (-q) else toFixedStrNonneg d q

/-- The `units` array of `formatLargeNumber`. -/
def unitsList : List String := ["", "K", "M", "B", "T", "Q"]

/-- The `while (scaled >= 1000 && unitIndex < units.length - 1)` loop of
`formatLargeNumber`.  `unitIndex` starts at `0` and strictly increases,
and the guard requires `unitIndex < 5`, so the loop runs at most five
times; the fuel `5` supplied at the call site therefore never cuts it
short. -/
def compactLoop : ℕ → ℚ → ℕ → ℚ × ℕ
  | 0, scaled, unitIndex => (scaled, unitIndex)
  | fuel + 1, scaled, unitIndex =>
    if 1000 ≤ scaled ∧ unitIndex < 5 then
      compactLoop fuel (scaled / 1000) (unitIndex + 1)
    else (scaled, unitIndex)

/-- `formatLargeNumber(value)` from `script.js`: `"-"` for `null`,
otherwise the value scaled down by factors of `1000` with the matching
K/M/B/T/Q suffix, printed with two decimals below `100` units and zero
decimals from `100` units up. -/
def formatLargeNumber (value : Option ℚ) : String :=
  match value with
  | none => "-"
  | some v =>
    let su := compactLoop 5 v 0
    "$" ++ toFixedStr (if su.1 < 100 then 2 else 0) su.1 ++ unitsList.getD su.2 ""

/-! ### The event-driven refresh scheduler (first script variant)

`script.js`'s first variant keeps `currentOrder`, `chartTimeframe`,
`refreshTimer` and `coinsData` as module state; `fetchData` may be
triggered by page load, by the two order buttons, or by the auto-refresh
timer, and each invocation issues a snapshot request built from the
`currentOrder` read at that moment.  The `await` points of `fetchData`
make it re-entrant: each started invocation is an independent in-flight
cycle whose continuation later writes `coinsData` and re-arms the timer
(success) or writes the error message (failure).  The model tags each
in-flight cycle, and the stored record set, with the order its request
URL was built from. -/

inductive Order where
  | mcap
  | volume
  deriving DecidableEq, Repr

inductive TF where
  | d7
  | d30
  deriving DecidableEq, Repr

/-- Externally visible effects of one event-handler run. -/
inductive Eff where
  | netSnapshotRequest : Order → Eff
  | renderCharts : Eff
  | showError : Eff
  deriving DecidableEq, Repr

structure Sys where
  currentOrder : Order
  chartTimeframe : TF
  refreshTimer : Bool
  inflight : List Order
  coinsData : Option Order
  errorShown : Bool
  deriving DecidableEq, Repr

/-- The synchronous head of `fetchData` up to its first `await`: clear the
pending refresh timer (`clearTimeout`), issue the snapshot request for the
current order, and leave the invocation in flight. -/
def fetchDataStart (s : Sys) : Sys × List Eff :=
  ({ s with refreshTimer := false, inflight := s.inflight ++ [s.currentOrder] },
   [Eff.netSnapshotRequest s.currentOrder])

/-- Events the browser can deliver: the four button clicks, the refresh
timer firing, and the settlement (resolution or rejection) of the `i`-th
in-flight `fetchData` invocation's awaited work. -/
inductive Ev where
  | clickMarket
  | clickVolume
  | clickChart7
  | clickChart30
  | timerFire
  | resolve : ℕ → Ev
  | fail : ℕ → Ev
  deriving DecidableEq, Repr

/-- One event-handler run, straight from the listeners and the two halves
of `fetchData`: order clicks are guarded by `currentOrder !==`, update the
order and call `fetchData`; chart clicks are guarded by
`chartTimeframe !==`, update the timeframe and call `updateAllCharts`
(pure re-rendering of the retained `coinsData` — no fetch); the timer
fires only while armed and calls `fetchData`; a resolving cycle writes
`coinsData` for the order its URL was built from and re-arms the timer;
a failing cycle writes the error message and — the `catch` block sets no
timer — leaves `refreshTimer` as it was. -/
def stepEv (s : Sys) : Ev → Sys × List Eff
  | Ev.clickMarket =>
    if s.currentOrder = Order.mcap then (s, [])
    else fetchDataStart { s with currentOrder := Order.mcap }
  | Ev.clickVolume =>
    if s.currentOrder = Order.volume then (s, [])
    else fetchDataStart { s with currentOrder := Order.volume }
  | Ev.clickChart7 =>
    if s.chartTimeframe = TF.d7 then (s, [])
    else ({ s with chartTimeframe := TF.d7 }, [Eff.renderCharts])
  | Ev.clickChart30 =>
    if s.chartTimeframe = TF.d30 then (s, [])
    else ({ s with chartTimeframe := TF.d30 }, [Eff.renderCharts])
  | Ev.timerFire =>
    if s.refreshTimer then fetchDataStart s else (s, [])
  | Ev.resolve i =>
    if h : i < s.inflight.length then
      ({ s with coinsData := some (s.inflight.get ⟨i, h⟩),
                refreshTimer := true,
                inflight := s.inflight.eraseIdx i },
       [Eff.renderCharts])
    else (s, [])
  | Ev.fail i =>
    if i < s.inflight.length then
      ({ s with inflight := s.inflight.eraseIdx i, errorShown := true },
       [Eff.showError])
    else (s, [])

/-- Runs a list of events, collecting effects. -/
def runEvents (s : Sys) : List Ev → Sys × List Eff
  | [] => (s, [])
  | e :: es =>
    let r := stepEv s e
    let r' := runEvents r.1 es
    (r'.1, r.2 ++ r'.2)

/-- Module state right after page load of the first variant:
`currentOrder = market_cap_desc`, `chartTimeframe = '7d'`, no timer, no
data — and the `DOMContentLoaded` call to `fetchData` in flight. -/
def loadedSys : Sys :=
  (fetchDataStart ⟨Order.mcap, TF.d7, false, [], none, false⟩).1

/-! ### Helper lemmas -/

lemma rsiGains_nonneg (prices : List ℚ) (period : ℕ) : 0 ≤ rsiGains prices period := by
  apply List.sum_nonneg
  intro x hx
  exact of_decide_eq_true (List.mem_filter.mp hx).2

lemma rsiLosses_nonneg (prices : List ℚ) (period : ℕ) : 0 ≤ rsiLosses prices period := by
  apply List.sum_nonneg
  intro x hx
  obtain ⟨c, hc, rfl⟩ := List.mem_map.mp hx
  have hc0 : c < 0 := of_decide_eq_true (List.mem_filter.mp hc).2
  linarith

lemma rsiDeltas_replicate (c : ℚ) {n period : ℕ} (h : period < n) :
    rsiDeltas (List.replicate n c) period = List.replicate period 0 := by
  rw [rsiDeltas, rsiWindow, List.take_replicate, List.drop_replicate,
    List.zipWith_replicate, sub_self]
  congr 1
  omega

/-! ### Claim theorems -/

/-- C7: for every non-empty price series, the moving average is the mean of
the last `window` points — of all points when the series is shorter than
the window — and it is absent for the empty series; the `avg50` and
`avg200` fields computed by `fetchMarketChart` are exactly this
computation at windows 50 and 200. -/
theorem movingAverage_spec (series : List ℚ) (window : ℕ) :
    (series = [] → movingAverage series window = none)
    ∧ (series ≠ [] → window ≤ series.length →
        movingAverage series window
          = some ((series.drop (series.length - window)).sum / (window : ℚ)))
    ∧ (series ≠ [] → series.length < window →
        movingAverage series window = some (series.sum / (series.length : ℚ)))
    ∧ (fetchMarketChartModel series).avg50 = movingAverage series 50
    ∧ (fetchMarketChartModel series).avg200 = movingAverage series 200 := by
  refine ⟨?_, ?_, ?_, ?_, ?_⟩
  · intro h
    simp [movingAverage, h]
  · intro hne hw
    simp only [movingAverage, trailing]
    rw [if_neg (by simpa using hne)]
    have hlen : (series.drop (series.length - window)).length = window := by
      rw [List.length_drop]
      omega
    rw [hlen]
  · intro hne hw
    have h0 : series.length - window = 0 := by omega
    simp only [movingAverage, trailing, h0, List.drop_zero]
    rw [if_neg (by simpa using hne)]
  · by_cases h : series.isEmpty
    · simp [fetchMarketChartModel, movingAverage, h, noData]
    · simp [fetchMarketChartModel, movingAverage, h]
  · by_cases h : series.isEmpty
    · simp [fetchMarketChartModel, movingAverage, h, noData]
    · simp [fetchMarketChartModel, movingAverage, h]

/-- C7 witness: the spec's concrete instance, a window larger than the
series. -/
theorem movingAverage_spec_witness : movingAverage [10, 20, 30] 50 = some 20 := by
  have h := (movingAverage_spec [10, 20, 30] 50).2.2.1 (by decide) (by decide)
  rw [h]
  norm_num

/-- C8: the volume/market-cap ratio is `volume / marketCap` when the
market cap is positive and absent otherwise, with the spec's two concrete
instances. -/
theorem volumeOverMarketCap_spec :
    (∀ v m : ℚ, 0 < m → volumeOverMarketCap v m = some (v / m))
    ∧ (∀ v m : ℚ, m ≤ 0 → volumeOverMarketCap v m = none)
    ∧ volumeOverMarketCap 500 0 = none
    ∧ volumeOverMarketCap 500 1000 = some (1 / 2) := by
  refine ⟨fun v m h => by simp [volumeOverMarketCap, h],
    fun v m h => by simp [volumeOverMarketCap, not_lt.mpr h],
    by simp [volumeOverMarketCap],
    by norm_num [volumeOverMarketCap]⟩

/-- C8 witness: the positive-market-cap branch at a fresh input. -/
theorem volumeOverMarketCap_spec_witness :
    volumeOverMarketCap 3 2 = some (3 / 2) :=
  volumeOverMarketCap_spec.1 3 2 (by norm_num)

/-- C10: a delta of exactly zero is accumulated as a gain, so a constant
price series of more than `period` points yields RSI exactly 100 (the
zero-average-loss branch), not absent and not 50. -/
theorem calculateRSI_const (c : ℚ) (n period : ℕ) (h : period < n) :
    calculateRSI (List.replicate n c) period = some 100 := by
  have hg : ¬ ((List.replicate n c).length ≤ period) := by
    simp only [List.length_replicate]
    omega
  have hL : rsiLosses (List.replicate n c) period = 0 := by
    rw [rsiLosses, rsiDeltas_replicate c h]
    have hf : (List.replicate period (0 : ℚ)).filter (fun x => x < 0) = [] :=
      List.filter_eq_nil_iff.mpr (fun a ha => by
        have := List.eq_of_mem_replicate ha
        simp [this])
    simp [hf]
  rw [calculateRSI, if_neg hg, if_pos (by rw [hL, zero_div])]

/-- C10 witness: a constant 15-point series at period 14. -/
theorem calculateRSI_const_witness :
    calculateRSI (List.replicate 15 (7 : ℚ)) 14 = some 100 :=
  calculateRSI_const 7 15 14 (by norm_num)

lemma rsiDeltas_take (prices : List ℚ) (period : ℕ) :
    rsiDeltas (prices.take (period + 1)) period = rsiDeltas prices period := by
  simp [rsiDeltas, rsiWindow, List.take_take]

lemma rsiGains_take (prices : List ℚ) (period : ℕ) :
    rsiGains (prices.take (period + 1)) period = rsiGains prices period := by
  rw [rsiGains, rsiGains, rsiDeltas_take]

lemma rsiLosses_take (prices : List ℚ) (period : ℕ) :
    rsiLosses (prices.take (period + 1)) period = rsiLosses prices period := by
  rw [rsiLosses, rsiLosses, rsiDeltas_take]

/-- C4 (amended): `calculateRSI` averages over the FIRST `period` deltas
of its argument — it depends only on the first `period + 1` points, not
the last ones; on a series of exactly `period + 1` points (the way the
pipeline calls it, via `prices.slice(-15)`) this coincides with the
spec's trailing-delta formula; shorter series give absent. -/
theorem calculateRSI_head_window (prices : List ℚ) (period : ℕ) :
    calculateRSI prices period = calculateRSI (prices.take (period + 1)) period
    ∧ (prices.length ≤ period → calculateRSI prices period = none)
    ∧ (prices.length = period + 1 →
        calculateRSI prices period = specTrailingRSI prices period) := by
  refine ⟨?_, ?_, ?_⟩
  · by_cases h : prices.length ≤ period
    · have h2 : (prices.take (period + 1)).length ≤ period := by
        rw [List.length_take]
        omega
      rw [calculateRSI, if_pos h, calculateRSI, if_pos h2]
    · have h2 : ¬ (prices.take (period + 1)).length ≤ period := by
        rw [List.length_take]
        omega
      rw [calculateRSI, if_neg h, calculateRSI, if_neg h2, rsiGains_take, rsiLosses_take]
  · intro h
    rw [calculateRSI, if_pos h]
  · intro h
    have htake : prices.take (period + 1) = prices :=
      List.take_of_length_le (le_of_eq h)
    have hdrop : prices.drop (prices.length - (period + 1)) = prices := by
      rw [h]
      simp
    have hdel : trailingDeltas prices period = rsiDeltas prices period := by
      rw [trailingDeltas, rsiDeltas, rsiWindow, htake, hdrop]
    simp only [calculateRSI, specTrailingRSI, rsiGains, rsiLosses, hdel]

/-- C4 witness: a series of exactly `period + 1` points, where the code's
leading-window RSI and the spec's trailing-window formula agree. -/
theorem calculateRSI_head_window_witness :
    calculateRSI [1, 2, 3] 2 = specTrailingRSI [1, 2, 3] 2 :=
  (calculateRSI_head_window [1, 2, 3] 2).2.2 (by decide)

lemma calculateRSI_badSeries : calculateRSI badSeries 14 = some 0 := by
  norm_num [calculateRSI, rsiGains, rsiLosses, rsiDeltas, rsiWindow, badSeries,
    List.replicate]

lemma specTrailingRSI_badSeries : specTrailingRSI badSeries 14 = some 100 := by
  norm_num [specTrailingRSI, trailingDeltas, badSeries, List.replicate]

/-- C4 counterexample: on `badSeries` (16 points, so longer than
`period + 1 = 15`) the code returns 0 while the claim's
trailing-delta formula gives 100 — `calculateRSI` does not average over
the last `period` deltas and does not depend only on the final
`period + 1` points. -/
theorem calculateRSI_head_window_cx :
    calculateRSI badSeries 14 = some 0
    ∧ specTrailingRSI badSeries 14 = some 100
    ∧ calculateRSI badSeries 14 ≠ specTrailingRSI badSeries 14 := by
  refine ⟨calculateRSI_badSeries, specTrailingRSI_badSeries, ?_⟩
  rw [calculateRSI_badSeries, specTrailingRSI_badSeries]
  simp

/-- C5 (amended): for a series of more than `period` points the RSI is
always a defined value in `[0, 100]`, and it is exactly 100 whenever all
deltas the code examines — the FIRST `period` deltas (equal to the
trailing ones when the series has exactly `period + 1` points) — are
non-negative. -/
theorem calculateRSI_range (prices : List ℚ) (period : ℕ)
    (h : period < prices.length) :
    (∃ r, calculateRSI prices period = some r ∧ 0 ≤ r ∧ r ≤ 100)
    ∧ ((∀ d ∈ rsiDeltas prices period, 0 ≤ d) →
        calculateRSI prices period = some 100) := by
  have hg : ¬ (prices.length ≤ period) := by omega
  constructor
  · by_cases hz : rsiLosses prices period / (period : ℚ) = 0
    · exact ⟨100, by rw [calculateRSI, if_neg hg, if_pos hz], by norm_num,
        le_refl 100⟩
    · have hLpos : 0 < rsiLosses prices period / (period : ℚ) := by
        rcases div_ne_zero_iff.mp hz with ⟨hL, hp⟩
        have h1 : 0 < rsiLosses prices period :=
          lt_of_le_of_ne (rsiLosses_nonneg _ _) (Ne.symm hL)
        have h2 : 0 < (period : ℚ) :=
          lt_of_le_of_ne (by positivity) (Ne.symm hp)
        exact div_pos h1 h2
      have hGnn : 0 ≤ rsiGains prices period / (period : ℚ) :=
        div_nonneg (rsiGains_nonneg _ _) (by positivity)
      have hrsnn : 0 ≤ rsiGains prices period / (period : ℚ) /
          (rsiLosses prices period / (period : ℚ)) :=
        div_nonneg hGnn (le_of_lt hLpos)
      have h1p : (0 : ℚ) < 1 + rsiGains prices period / (period : ℚ) /
          (rsiLosses prices period / (period : ℚ)) := by linarith
      have hdle : 100 / (1 + rsiGains prices period / (period : ℚ) /
          (rsiLosses prices period / (period : ℚ))) ≤ 100 := by
        rw [div_le_iff₀ h1p]
        nlinarith
      have hdpos : 0 < 100 / (1 + rsiGains prices period / (period : ℚ) /
          (rsiLosses prices period / (period : ℚ))) := by positivity
      exact ⟨100 - 100 / (1 + rsiGains prices period / (period : ℚ) /
          (rsiLosses prices period / (period : ℚ))),
        by rw [calculateRSI, if_neg hg, if_neg hz], by linarith, by linarith⟩
  · intro hall
    have hf : (rsiDeltas prices period).filter (fun c => c < 0) = [] :=
      List.filter_eq_nil_iff.mpr (fun a ha => by
        simpa using not_lt.mpr (hall a ha))
    have hL : rsiLosses prices period = 0 := by
      rw [rsiLosses, hf]
      simp
    rw [calculateRSI, if_neg hg, if_pos (by rw [hL, zero_div])]

/-- C5 witness: a strictly rising two-point series at period 1 — defined,
in range, and exactly 100 since its only delta is a gain. -/
theorem calculateRSI_range_witness : calculateRSI [1, 2] 1 = some 100 :=
  (calculateRSI_range [1, 2] 1 (by decide)).2 (by
    norm_num [rsiDeltas, rsiWindow])

/-- C5 counterexample: `badSeries` has 16 ≥ 15 points and all 14 trailing
deltas non-negative, yet its RSI is 0, not 100 — the all-gains rule holds
for the deltas the code reads (the leading ones), not the trailing
deltas the claim names. -/
theorem calculateRSI_range_cx :
    14 < badSeries.length
    ∧ (∀ d ∈ trailingDeltas badSeries 14, 0 ≤ d)
    ∧ calculateRSI badSeries 14 ≠ some 100 := by
  have htd : trailingDeltas badSeries 14 = List.replicate 14 0 := by
    have hdrop : badSeries.drop (badSeries.length - 15) = List.replicate 15 (0 : ℚ) := by
      norm_num [badSeries]
    rw [trailingDeltas, hdrop, List.drop_replicate, List.zipWith_replicate, sub_self]
    norm_num
  refine ⟨by norm_num [badSeries], ?_, ?_⟩
  · intro d hd
    rw [htd] at hd
    have := List.eq_of_mem_replicate hd
    simp [this]
  · rw [calculateRSI_badSeries]
    simp

lemma calculateRSI_isSome (l : List ℚ) (p : ℕ) :
    (calculateRSI l p).isSome ↔ p < l.length := by
  by_cases h : l.length ≤ p
  · simp [calculateRSI, h]
  · have h' : p < l.length := by omega
    rw [calculateRSI, if_neg h]
    split <;> simp [h']

/-- C3 (amended): `enrich` always returns one record per snapshot, in the
snapshot order; a coin whose history fetch rejects gets the all-absent
record; a coin whose fetch resolves with an empty series also gets the
all-absent record (the provider's "no data" answer); a coin whose fetch
resolves with a non-empty series gets `avg50`, `avg200` and `prices30`
populated, and `rsi14` populated exactly when the series has at least 15
points.  One failing coin never aborts the batch. -/
theorem enrich_failure_tolerant (batch : List (ℕ × FetchOutcome)) :
    (enrich batch).length = batch.length
    ∧ (enrich batch).map Prod.fst = batch.map Prod.fst
    ∧ (∀ (i c : ℕ), batch[i]? = some (c, FetchOutcome.fail) →
        (enrich batch)[i]? = some (c, noData))
    ∧ (∀ (i c : ℕ), batch[i]? = some (c, FetchOutcome.ok []) →
        (enrich batch)[i]? = some (c, noData))
    ∧ (∀ (i c : ℕ) (prices : List ℚ),
        batch[i]? = some (c, FetchOutcome.ok prices) → prices ≠ [] →
        ∃ ex : Extra, (enrich batch)[i]? = some (c, ex)
          ∧ ex.avg50.isSome ∧ ex.avg200.isSome ∧ ex.prices30 ≠ []
          ∧ (ex.rsi14.isSome ↔ 15 ≤ prices.length)) := by
  refine ⟨by simp [enrich], ?_, ?_, ?_, ?_⟩
  · rw [enrich, List.map_map]
    apply List.map_congr_left
    intro a _
    rcases a with ⟨c, o⟩
    cases o <;> rfl
  · intro i c hi
    rw [enrich, List.getElem?_map, hi]
    rfl
  · intro i c hi
    rw [enrich, List.getElem?_map, hi]
    simp [fetchMarketChartModel]
  · intro i c prices hi hne
    have hemp : prices.isEmpty = false := by simpa using hne
    refine ⟨fetchMarketChartModel prices, ?_, ?_, ?_, ?_, ?_⟩
    · rw [enrich, List.getElem?_map, hi]
      rfl
    · simp [fetchMarketChartModel, hemp]
    · simp [fetchMarketChartModel, hemp]
    · simp only [fetchMarketChartModel, hemp, Bool.false_eq_true, if_false, trailing]
      rw [Ne, List.drop_eq_nil_iff]
      have : 0 < prices.length := List.length_pos.mpr hne
      omega
    · simp only [fetchMarketChartModel, hemp, Bool.false_eq_true, if_false]
      rw [calculateRSI_isSome]
      simp only [trailing, List.length_drop]
      omega

/-- C3 witness: a one-coin batch whose only fetch fails still yields its
record, with every indicator field absent. -/
theorem enrich_failure_tolerant_witness :
    (enrich [(7, FetchOutcome.fail)])[0]? = some (7, noData) :=
  (enrich_failure_tolerant [(7, FetchOutcome.fail)]).2.2.1 0 7 rfl

/-- C3 counterexample: coin 1's history fetch SUCCEEDS with the one-point
series `[5]`, yet its record is not fully populated — `rsi14` is absent
(`calculateRSI` needs 15 points) — refuting the claim that every
successful asset's record has every indicator field present. -/
theorem enrich_failure_tolerant_cx :
    (enrich [(0, FetchOutcome.fail), (1, FetchOutcome.ok [5])])[1]?
      = some (1, { avg50 := some 5, avg200 := some 5, prices30 := [5],
                   rsi14 := none }) := by
  norm_num [enrich, fetchMarketChartModel, trailing, calculateRSI, noData]

lemma toFixedDigits_eq (d : ℕ) (q : ℚ) (n : ℤ)
    (h1 : (n : ℚ) ≤ q * 10 ^ d + 1 / 2) (h2 : q * 10 ^ d + 1 / 2 < n + 1) :
    toFixedDigits d q = n := by
  rw [toFixedDigits, Int.floor_eq_iff]
  exact ⟨h1, h2⟩

lemma formatLargeNumber_12345678 : formatLargeNumber (some 12345678) = "$12.35M" := by
  have hc : compactLoop 5 12345678 0 = (6172839 / 500000, 2) := by
    rw [show (5 : ℕ) = 4 + 1 from rfl, compactLoop]
    norm_num
    rw [show (4 : ℕ) = 3 + 1 from rfl, compactLoop]
    norm_num
    rw [show (3 : ℕ) = 2 + 1 from rfl, compactLoop]
    norm_num
  have hd : toFixedDigits 2 (6172839 / 500000) = (1235 : ℤ) :=
    toFixedDigits_eq _ _ _ (by norm_num) (by norm_num)
  rw [formatLargeNumber, hc]
  rw [if_pos (by norm_num : ((6172839 / 500000 : ℚ) < 100))]
  rw [toFixedStr, if_neg (by norm_num : ¬ ((6172839 / 500000 : ℚ) < 0))]
  rw [toFixedStrNonneg, hd]
  decide

lemma formatLargeNumber_999 : formatLargeNumber (some 999) = "$999" := by
  have hc : compactLoop 5 999 0 = (999, 0) := by
    rw [show (5 : ℕ) = 4 + 1 from rfl, compactLoop]
    norm_num
  have hd : toFixedDigits 0 999 = (999 : ℤ) :=
    toFixedDigits_eq _ _ _ (by norm_num) (by norm_num)
  rw [formatLargeNumber, hc]
  rw [if_neg (by norm_num : ¬ ((999 : ℚ) < 100))]
  rw [toFixedStr, if_neg (by norm_num : ¬ ((999 : ℚ) < 0)), toFixedStrNonneg, hd]
  decide

/-- C6 (amended): `formatLargeNumber` maps 12,345,678 to `"$12.35M"`, but
maps 999 to `"$999"` — below 1000 no unit compaction happens (the scaling
loop does not run), yet 999 ≥ 100 falls in the zero-decimal regime, so no
`".00"` is printed. -/
theorem formatLargeNumber_amended :
    formatLargeNumber (some 12345678) = "$12.35M"
    ∧ formatLargeNumber (some 999) = "$999"
    ∧ (∀ v : ℚ, v < 1000 → compactLoop 5 v 0 = (v, 0)) := by
  refine ⟨formatLargeNumber_12345678, formatLargeNumber_999, ?_⟩
  intro v hv
  rw [show (5 : ℕ) = 4 + 1 from rfl, compactLoop,
    if_neg (by simp [not_le.mpr hv])]

/-- C6 witness: no compaction at 999. -/
theorem formatLargeNumber_amended_witness : compactLoop 5 999 0 = (999, 0) :=
  formatLargeNumber_amended.2.2 999 (by norm_num)

/-- C6 counterexample: the claim's expected rendering of 999 is wrong —
the code prints `"$999"`, not `"$999.00"`, because `scaled < 100` fails
and `toFixed(0)` is used. -/
theorem formatLargeNumber_cx :
    formatLargeNumber (some 999) = "$999"
    ∧ ¬ formatLargeNumber (some 999) = "$999.00" := by
  refine ⟨formatLargeNumber_999, ?_⟩
  rw [formatLargeNumber_999]
  decide

/-- C1: the code violates the at-most-one-cycle invariant.  With the
page-load `fetchData` still in flight, clicking the volume button starts a
SECOND concurrent snapshot fetch (the timer clear in `fetchData` only
stops the not-yet-armed timer, there is no busy flag), and when the stale
market-cap response settles last it overwrites `coinsData`: the final
record set is for `market_cap_desc` although `volume_desc` was the most
recently requested order. -/
theorem orderSwitch_overlapping_fetch :
    loadedSys.inflight = [Order.mcap]
    ∧ (stepEv loadedSys Ev.clickVolume).1.inflight = [Order.mcap, Order.volume]
    ∧ (stepEv loadedSys Ev.clickVolume).2 = [Eff.netSnapshotRequest Order.volume]
    ∧ (runEvents loadedSys [Ev.clickVolume, Ev.resolve 1, Ev.resolve 0]).1.currentOrder
        = Order.volume
    ∧ (runEvents loadedSys [Ev.clickVolume, Ev.resolve 1, Ev.resolve 0]).1.coinsData
        = some Order.mcap := by
  decide

/-- C2 (amended): the `catch` arm of `fetchData` replaces the loading
indicator with the error message but does NOT re-arm the refresh timer —
only the success path does (`setTimeout` sits after the render, inside
`try`), while the start of `fetchData` always clears any pending timer.
So failure of a solo cycle halts the automatic scheduling loop: no retry
happens after the refresh interval. -/
theorem fetchFailure_error_no_rearm (s : Sys) (i : ℕ)
    (h : i < s.inflight.length) :
    (stepEv s (Ev.fail i)).1.errorShown = true
    ∧ (stepEv s (Ev.fail i)).1.refreshTimer = s.refreshTimer
    ∧ (stepEv s (Ev.fail i)).2 = [Eff.showError]
    ∧ (fetchDataStart s).1.refreshTimer = false := by
  simp [stepEv, fetchDataStart, if_pos h]

/-- C2 witness: the initial cycle failing. -/
theorem fetchFailure_error_no_rearm_witness :
    0 < loadedSys.inflight.length
    ∧ ((stepEv loadedSys (Ev.fail 0)).1.errorShown = true
      ∧ (stepEv loadedSys (Ev.fail 0)).1.refreshTimer = loadedSys.refreshTimer
      ∧ (stepEv loadedSys (Ev.fail 0)).2 = [Eff.showError]
      ∧ (fetchDataStart loadedSys).1.refreshTimer = false) :=
  ⟨by decide, fetchFailure_error_no_rearm loadedSys 0 (by decide)⟩

/-- C2 counterexample: after the page-load cycle fails, the error is
shown but the timer is disarmed, and a later timer tick is a no-op — the
scheduling loop has stopped, refuting "the scheduler still re-arms the
timer, so exactly one retry happens per refresh interval". -/
theorem fetchFailure_loop_stops :
    (stepEv loadedSys (Ev.fail 0)).1.errorShown = true
    ∧ (stepEv loadedSys (Ev.fail 0)).1.refreshTimer = false
    ∧ (stepEv loadedSys (Ev.fail 0)).1.inflight = []
    ∧ stepEv (stepEv loadedSys (Ev.fail 0)).1 Ev.timerFire
        = ((stepEv loadedSys (Ev.fail 0)).1, []) := by
  decide

/-- C9: a chart-timeframe click issues no network request and leaves the
record set, the sort order, the in-flight cycles and the timer untouched;
it only sets the timeframe and re-renders from the retained data, and a
click on the already-current timeframe is a complete no-op. -/
theorem timeframeSwitch_render_only (s : Sys) :
    ((stepEv s Ev.clickChart30).1.coinsData = s.coinsData
      ∧ (stepEv s Ev.clickChart30).1.currentOrder = s.currentOrder
      ∧ (stepEv s Ev.clickChart30).1.inflight = s.inflight
      ∧ (stepEv s Ev.clickChart30).1.refreshTimer = s.refreshTimer
      ∧ (stepEv s Ev.clickChart30).1.errorShown = s.errorShown
      ∧ (stepEv s Ev.clickChart30).1.chartTimeframe = TF.d30
      ∧ (∀ e ∈ (stepEv s Ev.clickChart30).2, e = Eff.renderCharts)
      ∧ (s.chartTimeframe ≠ TF.d30 →
          (stepEv s Ev.clickChart30).2 = [Eff.renderCharts])
      ∧ (s.chartTimeframe = TF.d30 → stepEv s Ev.clickChart30 = (s, [])))
    ∧ ((stepEv s Ev.clickChart7).1.coinsData = s.coinsData
      ∧ (stepEv s Ev.clickChart7).1.currentOrder = s.currentOrder
      ∧ (stepEv s Ev.clickChart7).1.inflight = s.inflight
      ∧ (stepEv s Ev.clickChart7).1.refreshTimer = s.refreshTimer
      ∧ (stepEv s Ev.clickChart7).1.errorShown = s.errorShown
      ∧ (stepEv s Ev.clickChart7).1.chartTimeframe = TF.d7
      ∧ (∀ e ∈ (stepEv s Ev.clickChart7).2, e = Eff.renderCharts)
      ∧ (s.chartTimeframe ≠ TF.d7 →
          (stepEv s Ev.clickChart7).2 = [Eff.renderCharts])
      ∧ (s.chartTimeframe = TF.d7 → stepEv s Ev.clickChart7 = (s, []))) := by
  constructor
  · by_cases h : s.chartTimeframe = TF.d30 <;> simp [stepEv, h]
  · by_cases h : s.chartTimeframe = TF.d7 <;> simp [stepEv, h]

/-- C9 witness: clicking the 7-day button while the timeframe is already
7d (the load-time default) is a complete no-op. -/
theorem timeframeSwitch_render_only_witness :
    stepEv loadedSys Ev.clickChart7 = (loadedSys, []) :=
  (timeframeSwitch_render_only loadedSys).2.2.2.2.2.2.2.2.2 rfl
